import Mathlib

/-!
# Verification of `detect_encoding.py` (jcallah/Detect-Codec)

A shallow embedding of `src/detect_encoding.py` and the parts of its external
collaborators that its control flow depends on:

* the Python standard-library function `tokenize.detect_encoding` (the
  declaration scanner), modelled byte-for-byte from its CPython source,
  including its `cookie_re` / `blank_re` regexes (both compiled with
  `re.ASCII`, so `\w` is exactly `[A-Za-z0-9_]`);
* the Python `bytes.decode` facility, modelled as an *oracle*
  (`Env.decR : String → List Nat → DecodeOutcome`): the repository's code
  only observes whether a decode attempt succeeds, raises
  `UnicodeDecodeError`, or raises some other error.  The codecs whose
  behaviour the development needs concretely (`utf-8`, `utf-8-sig`,
  `ascii`) are modelled exactly; every theorem quantifies over the oracle.

Files are byte lists (`List Nat`, each element `< 256` for real files);
`open(path,'rb').readline()` returns the bytes up to and including the first
`\n` (byte `10`).
-/

namespace DetectCodec

/-- A file's raw bytes.  `os.path.getsize` of a regular file equals the
length of its content, so the size guard is modelled on `List.length`. -/
abbrev Byte := Nat

/-- Python's binary-mode `readline`: the bytes up to and including the first
newline byte `10`, together with the remaining bytes of the stream. -/
def splitFirstLine : List Byte → List Byte × List Byte
  | [] => ([], [])
  | b :: rest =>
      if b = 10 then ([10], rest)
      else
        let p := splitFirstLine rest
        (b :: p.1, p.2)

/-- The UTF-8 byte-order mark `b'\xef\xbb\xbf'` (`codecs.BOM_UTF8`). -/
def BOM : List Byte := [0xEF, 0xBB, 0xBF]

/-- Is `b` a UTF-8 continuation byte (`0x80–0xBF`)? -/
def isCont (b : Byte) : Bool := 0x80 ≤ b && b ≤ 0xBF

/-- Strict UTF-8 decoding (RFC 3629, as CPython's `bytes.decode('utf-8')`)
as a byte-at-a-time state machine.  At a sequence boundary `need = 0`; a
lead byte sets `need` (outstanding continuation bytes), `acc` (the bits
accumulated so far) and the allowed range `lo..hi` of the *next* byte —
which is how the decoder rejects overlong forms (`E0` wants `A0..BF`,
`F0` wants `90..BF`), surrogates (`ED` wants `80..9F`) and code points
above `U+10FFFF` (`F4` wants `80..8F`); later continuation bytes must be
in `80..BF`.  Lead bytes `80..C1` and `F5..FF` are invalid.  `none`
models `UnicodeDecodeError`. -/
def utf8Run (need acc lo hi : Nat) : List Byte → Option (List Nat)
  | [] => if need = 0 then some [] else none
  | b :: rest =>
      if need = 0 then
        if b ≤ 0x7F then (utf8Run 0 0 0 0 rest).map (b :: ·)
        else if 0xC2 ≤ b && b ≤ 0xDF then utf8Run 1 (b - 0xC0) 0x80 0xBF rest
        else if b = 0xE0 then utf8Run 2 0 0xA0 0xBF rest
        else if b = 0xED then utf8Run 2 (0xED - 0xE0) 0x80 0x9F rest
        else if 0xE0 ≤ b && b ≤ 0xEF then utf8Run 2 (b - 0xE0) 0x80 0xBF rest
        else if b = 0xF0 then utf8Run 3 0 0x90 0xBF rest
        else if b = 0xF4 then utf8Run 3 (0xF4 - 0xF0) 0x80 0x8F rest
        else if 0xF0 ≤ b && b ≤ 0xF4 then utf8Run 3 (b - 0xF0) 0x80 0xBF rest
        else none
      else
        if lo ≤ b && b ≤ hi then
          if need = 1 then
            (utf8Run 0 0 0 0 rest).map ((acc * 0x40 + (b - 0x80)) :: ·)
          else utf8Run (need - 1) (acc * 0x40 + (b - 0x80)) 0x80 0xBF rest
        else none

/-- `bytes.decode('utf-8')`: the decoded code points, or `none` on
`UnicodeDecodeError`. -/
def utf8Decode (l : List Byte) : Option (List Nat) := utf8Run 0 0 0 0 l

/-- Does a byte string decode as strict UTF-8? -/
def utf8Valid (l : List Byte) : Bool := (utf8Decode l).isSome

/-- `bytes.decode('utf-8-sig')` succeeds iff UTF-8 decoding succeeds after
stripping one leading byte-order mark, if present. -/
def stripBOM (l : List Byte) : List Byte :=
  if l.take 3 = BOM then l.drop 3 else l

/-! ## The declaration scanner: `tokenize.detect_encoding`

Modelled from the CPython source of `tokenize.py` (the repository calls it
with the `readline` of a file opened in binary mode, so `filename` is the
file's path and the error messages carry a ` for '<path>'` suffix; the
messages themselves never influence control flow in the repository because
of the always-false re-raise guard, see `reraiseGuard`). -/

/-- `cookie_re` is compiled with `re.ASCII`, so `\w` is `[A-Za-z0-9_]`. -/
def isWordChar (c : Nat) : Bool :=
  (48 ≤ c && c ≤ 57) || (65 ≤ c && c ≤ 90) || (97 ≤ c && c ≤ 122) || c = 95

/-- The character class `[-\w.]` of `cookie_re`'s capture group. -/
def isGroupChar (c : Nat) : Bool := isWordChar c || c = 45 || c = 46

/-- Space, tab or form feed: the class `[ \t\f]`. -/
def isWsTF (c : Nat) : Bool := c = 32 || c = 9 || c = 12

/-- Try to match `coding[:=][ \t]*([-\w.]+)` at the head of the decoded
line; returns the capture group. -/
def matchCodingAt (cps : List Nat) : Option (List Nat) :=
  match cps with
  | 99 :: 111 :: 100 :: 105 :: 110 :: 103 :: sep :: rest =>
      if sep = 58 || sep = 61 then
        let afterWs := rest.dropWhile fun c => c = 32 || c = 9
        let grp := afterWs.takeWhile isGroupChar
        if grp = [] then none else some grp
      else none
  | _ => none

/-- The `.*?coding[:=][ \t]*([-\w.]+)` part of `cookie_re`: the non-greedy
`.*?` (which cannot cross a newline) makes the regex engine take the
leftmost position at which the rest of the pattern matches, backtracking
past positions where it does not. -/
def cookieScan : List Nat → Option (List Nat)
  | [] => none
  | c :: rest =>
      if c = 10 then none
      else
        match matchCodingAt (c :: rest) with
        | some grp => some grp
        | none => cookieScan rest

/-- `cookie_re.match` on a decoded line:
`^[ \t\f]*#.*?coding[:=][ \t]*([-\w.]+)` (with `re.ASCII`); returns the
capture group (the declared codec name) as code points. -/
def cookieMatch (cps : List Nat) : Option (List Nat) :=
  match cps.dropWhile isWsTF with
  | 35 :: rest => cookieScan rest
  | _ => none

/-- `blank_re.match` on the raw line bytes:
`^[ \t\f]*(?:[#\r\n]|$)` (with `re.ASCII`). -/
def blankMatch (line : List Byte) : Bool :=
  match line.dropWhile isWsTF with
  | [] => true
  | c :: _ => c = 35 || c = 13 || c = 10

/-- Build a `String` from ASCII code points (every `cookie_re` capture-group
character is ASCII). -/
def stringOfCps (cps : List Nat) : String :=
  String.mk (cps.map Char.ofNat)

/-- `Python str.startswith`, on character lists. -/
def charsStartWith : List Char → List Char → Bool
  | _, [] => true
  | [], _ :: _ => false
  | a :: as, b :: bs => a = b && charsStartWith as bs

/-- `tokenize._get_normal_name`: lowercase the first 12 characters, turn
`_` into `-`, canonicalise the UTF-8 and Latin-1 spelling families, and
otherwise return the original name. -/
def getNormalName (orig : String) : String :=
  let encL := ((orig.toList.take 12).map Char.toLower).map
    fun c => if c = '_' then '-' else c
  let enc := String.mk encL
  if enc = "utf-8" || charsStartWith encL "utf-8-".toList then "utf-8"
  else if enc = "latin-1" || enc = "iso-8859-1" || enc = "iso-latin-1"
      || charsStartWith encL "latin-1-".toList
      || charsStartWith encL "iso-8859-1-".toList
      || charsStartWith encL "iso-latin-1-".toList then "iso-8859-1"
  else orig

/-- The three `SyntaxError`s `tokenize.detect_encoding` can raise: a line
that is not valid UTF-8 (`invalid or missing encoding declaration for …`),
a cookie naming a codec unknown to `codecs.lookup`
(`unknown encoding for …`), and a non-UTF-8 cookie on a file that starts
with a UTF-8 BOM (`encoding problem for …: utf-8`). -/
inductive SyntaxErr where
  | invalidDeclaration
  | unknownEncoding (name : String)
  | bomConflict
  deriving DecidableEq, Repr

/-- `find_cookie(line)` from `tokenize.detect_encoding`, parameterised by
the set of codec names `codecs.lookup` recognises. -/
def findCookie (known : String → Bool) (bomFound : Bool) (line : List Byte) :
    Except SyntaxErr (Option String) :=
  match utf8Decode line with
  | none => .error .invalidDeclaration
  | some cps =>
      match cookieMatch cps with
      | none => .ok none
      | some grp =>
          let encoding := getNormalName (stringOfCps grp)
          if !(known encoding) then .error (.unknownEncoding encoding)
          else if bomFound then
            if encoding ≠ "utf-8" then .error .bomConflict
            else .ok (some "utf-8-sig")  -- encoding += '-sig'
          else .ok (some encoding)

/-- `tokenize.detect_encoding(file.readline)`, instrumented with a flag
telling whether the returned name came from a cookie (`true`) or is the
scanner's default (`false`).  The repository only uses `token[0]`, the
name (`tokenizeDetectEncoding`). -/
def tokenizeScan (known : String → Bool) (file : List Byte) :
    Except SyntaxErr (String × Bool) :=
  let line1 := (splitFirstLine file).1
  let rest1 := (splitFirstLine file).2
  -- if first.startswith(BOM_UTF8): bom_found = True; first = first[3:]; default = 'utf-8-sig'
  let bomFound := line1.take 3 = BOM
  let first := if bomFound then line1.drop 3 else line1
  let dflt := if bomFound then "utf-8-sig" else "utf-8"
  if first = [] then .ok (dflt, false)  -- if not first: return default, []
  else
    match findCookie known bomFound first with
    | .error e => .error e
    | .ok (some enc) => .ok (enc, true)
    | .ok none =>
        if !(blankMatch first) then .ok (dflt, false)
        else
          let line2 := (splitFirstLine rest1).1
          if line2 = [] then .ok (dflt, false)
          else
            match findCookie known bomFound line2 with
            | .error e => .error e
            | .ok (some enc) => .ok (enc, true)
            | .ok none => .ok (dflt, false)

/-- What the repository observes from `tokenize.detect_encoding`: the
encoding name `token[0]`, or the raised `SyntaxError`. -/
def tokenizeDetectEncoding (known : String → Bool) (file : List Byte) :
    Except SyntaxErr String :=
  (tokenizeScan known file).map (·.1)

/-! ## `attempt_decode` and the codec oracle -/

/-- The possible outcomes of the external call `text.decode(codec)`:
success, `UnicodeDecodeError` (the byte string is invalid for the codec),
or any other error (for instance the `LookupError` raised for an unknown
codec name). -/
inductive DecodeOutcome where
  | success
  | unicodeError
  | otherError
  deriving DecidableEq, Repr

/-- A Python exception escaping `text.decode(codec)`. -/
inductive PyExn where
  | unicodeDecodeError
  | lookupError
  deriving DecidableEq, Repr

/-- The call `text.decode(codec)` as seen by `attempt_decode`'s `try`
block, for a given decode oracle. -/
def decodeCall (decR : String → List Byte → DecodeOutcome)
    (text : List Byte) (codec : String) : Except PyExn Unit :=
  match decR codec text with
  | .success => .ok ()
  | .unicodeError => .error .unicodeDecodeError
  | .otherError => .error .lookupError

/-- `attempt_decode(text, codec)` from `src/detect_encoding.py`:

    codec_found = False
    try:
        text.decode(codec)
        codec_found = True
    except UnicodeDecodeError:
        pass
    finally:
        return codec_found

The `try` block leaves the pair (current `codec_found`, pending exception);
the `except` clause discharges a pending `UnicodeDecodeError`; the
`return` inside `finally` then *discards any still-pending exception*
(Python: a `return` in a `finally` clause swallows the in-flight
exception), so the function returns normally on every path. -/
def attempt_decode (decR : String → List Byte → DecodeOutcome)
    (text : List Byte) (codec : String) : Except PyExn Bool :=
  let afterTry : Bool × Option PyExn :=
    match decodeCall decR text codec with
    | .ok () => (true, none)
    | .error e => (false, some e)
  let afterExcept : Bool × Option PyExn :=
    match afterTry with
    | (found, some .unicodeDecodeError) => (found, none)
    | other => other
  -- finally: return codec_found  (discards afterExcept.2)
  .ok afterExcept.1

/-- The boolean the caller receives from `attempt_decode` (which never
raises, so the error branch is unreachable). -/
def attemptDecodeBool (decR : String → List Byte → DecodeOutcome)
    (text : List Byte) (codec : String) : Bool :=
  match attempt_decode decR text codec with
  | .ok b => b
  | .error _ => false

/-- The module-level `CODECS` list (the Python 3.7 codec list), in source
order. -/
def CODECS : List String := [
  "ascii", "utf-7", "utf-8-sig", "utf-8", "utf-16", "utf-16-be", "utf-16-le",
  "utf-32", "utf-32-be", "utf-32-le", "big5", "big5hkscs", "cp037", "cp273",
  "cp424", "cp437", "cp500", "cp720", "cp737", "cp775", "cp850", "cp852",
  "cp855", "cp856", "cp857", "cp858", "cp860", "cp861", "cp862", "cp863",
  "cp864", "cp865", "cp866", "cp869", "cp874", "cp875", "cp932", "cp949",
  "cp950", "cp1006", "cp1026", "cp1125", "cp1140", "cp1250", "cp1251",
  "cp1252", "cp1253", "cp1254", "cp1255", "cp1256", "cp1257", "cp1258",
  "cp65001", "euc-jp", "euc-jis-2004", "euc-jisx0213", "euc-kr", "gb2312",
  "gbk", "gb18030", "hz", "iso2022-jp", "iso2022-jp-1", "iso2022-jp-2",
  "iso2022-jp-2004", "iso2022-jp-3", "iso2022-jp-ext", "iso2022-kr",
  "latin-1", "iso8859-2", "iso8859-3", "iso8859-4", "iso8859-5", "iso8859-6",
  "iso8859-7", "iso8859-8", "iso8859-9", "iso8859-10", "iso8859-11",
  "iso8859-13", "iso8859-14", "iso8859-15", "iso8859-16", "johab", "koi8-r",
  "koi8-t", "koi8-u", "kz1048", "mac-cyrillic", "mac-greek", "mac-iceland",
  "mac-latin2", "mac-roman", "mac-turkish", "ptcp154", "shift-jis",
  "shift-jis-2004", "shift-jisx0213"]

/-! ## The orchestrator `detect_encoding` -/

/-- The external Python environment the repository's code calls into:
`decR` is the behaviour of `bytes.decode` per codec name, `known` is the
set of names `codecs.lookup` recognises (used by the declaration
scanner). -/
structure Env where
  decR : String → List Byte → DecodeOutcome
  known : String → Bool

/-- The keyword parameters of `detect_encoding`, with their defaults.  The
`size` ceiling is in megabytes; `verbose` only controls console output. -/
structure Params where
  full_check : Bool := true
  size : Option ℚ := none
  verbose : Bool := false

/-- Round to the nearest integer, ties to even — Python's `round` (the
model computes on exact rationals; Python rounds the nearest-double value,
which agrees except within double-rounding error of a tie). -/
def roundHalfEven (q : ℚ) : ℤ :=
  let f : ℤ := ⌊q⌋
  let r : ℚ := q - f
  if r < 1/2 then f
  else if 1/2 < r then f + 1
  else if f % 2 = 0 then f else f + 1

/-- `round(os.path.getsize(file_path) / 1048576, 4)` — the file size in
megabytes, rounded to four decimal places. -/
def fileSizeMB (bytes : Nat) : ℚ :=
  (roundHalfEven ((bytes : ℚ) * 10000 / 1048576) : ℚ) / 10000

/-- The guard on line 104,
`if 'invalid or missing encoding declaration for' in str(err) is False:`.
Python chains the comparison:
`('…' in str(err)) and (str(err) is False)`; the right conjunct is always
false because a string object is never the object `False`, so the guard
never triggers and the `raise` below it is dead code — every
`SyntaxError` from the scanner is swallowed. -/
def reraiseGuard (_err : SyntaxErr) : Bool := false

/-- How a call to `detect_encoding` can end.  `assertionError` is the
failed `assert file_size < params['size']`; `systemExit` is the
unconditional `sys.exit()` after it; `syntaxError` is a re-raised scanner
error (unreachable, see `reraiseGuard`); `diverges` means the
`while codec_known is False` loop never terminates. -/
inductive Outcome where
  | ok (codec : String)
  | assertionError
  | systemExit
  | syntaxError (e : SyntaxErr)
  | diverges
  deriving DecidableEq, Repr

/-- Observable file accesses and decode trials of one call: `scanRead` —
the first `open`, whose `readline` feeds the scanner; `contentsRead` —
the second `open`, which reads the contents (lines 115–120, executed
unconditionally once the size guard has passed); `trials` — the codecs
passed to `attempt_decode`, in order (for a diverging call, the trials of
the first pass, which repeat forever). -/
structure Trace where
  scanRead : Bool
  contentsRead : Bool
  trials : List String
  deriving DecidableEq, Repr

/-- The bytes handed to the brute-force loop: the whole file when
`full_check`, else only the first line (lines 115–120). -/
def sampledBytes (p : Params) (file : List Byte) : List Byte :=
  if p.full_check then file else (splitFirstLine file).1

/-- One pass of the `for codec in CODECS` loop: the first codec for which
`attempt_decode` returns `True`, if any. -/
def brutePass (decR : String → List Byte → DecodeOutcome)
    (contents : List Byte) : Option String :=
  CODECS.find? (attemptDecodeBool decR contents)

/-- The codecs tried before (and including) the first success of a pass;
a full pass when every codec fails. -/
def passTrials (decR : String → List Byte → DecodeOutcome)
    (contents : List Byte) : List String :=
  match brutePass decR contents with
  | some c => (CODECS.takeWhile fun x => !(attemptDecodeBool decR contents x)) ++ [c]
  | none => CODECS

/-- `detect_encoding(file_path, **kwargs)` from `src/detect_encoding.py`,
together with its observable file accesses.  Control flow in source order:

1. the size guard (lines 90–94): when `size` is set, `assert
   file_size < size` (an `AssertionError` when the file is at or over the
   limit) and then the unconditional `sys.exit()`;
2. the first `open` (lines 96–113): `tokenize.detect_encoding`; a
   returned name sets `codec_known`; a `SyntaxError` is swallowed (the
   re-raise guard on line 104 is always false, see `reraiseGuard`);
3. the second `open` (lines 115–120): the contents are read whether or
   not a codec is already known;
4. the `while codec_known is False` loop (lines 122–136): repeated
   identical passes over `CODECS`; it terminates exactly when some codec
   succeeds, after one pass. -/
def detect_encoding (env : Env) (p : Params) (file : List Byte) :
    Outcome × Trace :=
  match p.size with
  | some s =>
      if fileSizeMB file.length < s then (.systemExit, ⟨false, false, []⟩)
      else (.assertionError, ⟨false, false, []⟩)
  | none =>
      match tokenizeDetectEncoding env.known file with
      | .ok enc =>
          -- codec_known = True; the contents are still read (lines 115–120)
          (.ok enc, ⟨true, true, []⟩)
      | .error err =>
          if reraiseGuard err then (.syntaxError err, ⟨true, false, []⟩)
          else
            let contents := sampledBytes p file
            match brutePass env.decR contents with
            | some c => (.ok c, ⟨true, true, passTrials env.decR contents⟩)
            | none => (.diverges, ⟨true, true, passTrials env.decR contents⟩)

/-- The result alone. -/
def detectResult (env : Env) (p : Params) (file : List Byte) : Outcome :=
  (detect_encoding env p file).1

/-- The `while codec_known is False` loop with an explicit bound on the
number of passes: `none` means the loop is still running after `fuel`
passes.  Each pass re-runs the identical `for codec in CODECS` body. -/
def whileLoopFuel (decR : String → List Byte → DecodeOutcome)
    (contents : List Byte) : Nat → Option String
  | 0 => none
  | fuel + 1 =>
      match brutePass decR contents with
      | some c => some c
      | none => whileLoopFuel decR contents fuel

/-- `detect_encoding` run with a bound on the number of brute-force
passes: `none` means the call has not returned after `fuel` passes. -/
def detectEncodingFuel (env : Env) (p : Params) (file : List Byte)
    (fuel : Nat) : Option Outcome :=
  match p.size with
  | some s =>
      if fileSizeMB file.length < s then some .systemExit
      else some .assertionError
  | none =>
      match tokenizeDetectEncoding env.known file with
      | .ok enc => some (.ok enc)
      | .error err =>
          if reraiseGuard err then some (.syntaxError err)
          else
            match whileLoopFuel env.decR (sampledBytes p file) fuel with
            | some c => some (.ok c)
            | none => none

/-! ## Spec-side characterisations and concrete scenarios -/

/-- Modelled from the spec: "the result is the first codec, in Candidate
Codec List order, capable of decoding the sampled bytes without error" —
`c` succeeds and every codec listed before it fails. -/
def IsFirstSuccessfulCodec (dec : String → Bool) (c : String) : Prop :=
  dec c = true ∧ ∃ l₁ l₂, CODECS = l₁ ++ c :: l₂ ∧ ∀ x ∈ l₁, dec x = false

/-- The environment decodes `utf-8` and `utf-8-sig` exactly as Python
does: strict UTF-8, with `utf-8-sig` first stripping one byte-order
mark. -/
def UTF8Faithful (env : Env) : Prop :=
  ∀ b : List Byte,
    (env.decR "utf-8" b = .success ↔ utf8Valid b = true) ∧
    (env.decR "utf-8-sig" b = .success ↔ utf8Valid (stripBOM b) = true)

/-- Does the file carry an encoding cookie at all (on line 1, or on line 2
when line 1 is blank or a comment), regardless of whether the named codec
is recognised?  Mirrors the line handling of `tokenize.detect_encoding`. -/
def fileHasCookie (file : List Byte) : Bool :=
  let line1 := (splitFirstLine file).1
  let first := if line1.take 3 = BOM then line1.drop 3 else line1
  match utf8Decode first with
  | none => false
  | some cps =>
      match cookieMatch cps with
      | some _ => true
      | none =>
          if blankMatch first then
            match utf8Decode (splitFirstLine (splitFirstLine file).2).1 with
            | none => false
            | some cps2 => (cookieMatch cps2).isSome
          else false

/-- Bytes of an ASCII string (each character's code point; for the ASCII
text used in the scenarios this is the file's byte content). -/
def strBytes (s : String) : List Byte := s.toList.map Char.toNat

/-- An environment in which decoding zero bytes succeeds for every codec
(as in Python) and every name is registered.  Only used on the empty
file, where the brute-force loop is never reached. -/
def emptyFileEnv : Env := ⟨fun _ _ => .success, fun _ => true⟩

/-- The first twelve candidate codecs — every codec listed before
`"cp037"`. -/
def beforeCp037 : List String :=
  ["ascii", "utf-7", "utf-8-sig", "utf-8", "utf-16", "utf-16-be",
   "utf-16-le", "utf-32", "utf-32-be", "utf-32-le", "big5", "big5hkscs"]

/-- An environment matching Python's codecs on the byte string
`b'\xff'`: the ASCII, UTF and Big5 family reject it (`0xFF` is no valid
ASCII/UTF-8/UTF-7 byte, a lone byte is no valid UTF-16/32 unit, and
`0xFF` is no Big5 lead byte), while `cp037` — like the later single-byte
code pages — maps every byte. -/
def envFF : Env :=
  ⟨fun c _ => if beforeCp037.contains c then .unicodeError else .success,
   fun _ => true⟩

/-- A one-byte file that is not valid UTF-8, so the declaration scan
raises (and the code swallows) a `SyntaxError`. -/
def fileFF : List Byte := [0xFF]

/-- `b"# -*- coding: cp1252 -*-\n\xff\n"` — a cookie naming `cp1252`,
followed by a second line that is not valid UTF-8. -/
def cookieFileCp1252 : List Byte :=
  strBytes "# -*- coding: cp1252 -*-\n" ++ [0xFF, 10]

/-- An environment in which `codecs.lookup` knows `cp1252` and every
decode attempt fails — the scanner's trust in the cookie makes the
decode oracle irrelevant. -/
def envCp1252 : Env := ⟨fun _ _ => .unicodeError, fun s => s == "cp1252"⟩

/-- `b"# -*- coding: bogus -*-\nhello\n"` — a well-formed cookie naming a
codec unknown to Python. -/
def bogusCookieFile : List Byte := strBytes "# -*- coding: bogus -*-\nhello\n"

/-- An environment for `bogusCookieFile`: no codec named `bogus` is
registered (the scanner consults `known` only on that name for this
file), and the all-ASCII contents decode under `ascii` (tried first), as
in Python. -/
def envBogus : Env :=
  ⟨fun c _ => if c = "ascii" then .success else .unicodeError,
   fun _ => false⟩

/-- `b"# -*- coding: utf-8 -*-\nprint(1)\n"` — the spec's scenario of a
UTF-8 file with a UTF-8 cookie. -/
def utf8CookieFile : List Byte := strBytes "# -*- coding: utf-8 -*-\nprint(1)\n"

/-- An environment whose `utf-8` and `utf-8-sig` decoding is exactly
Python's (`UTF8Faithful`) and whose other codecs reject everything; it
registers `utf-8`. -/
def utf8Env : Env :=
  ⟨fun c b =>
      if c = "utf-8" then (if utf8Valid b then .success else .unicodeError)
      else if c = "utf-8-sig" then
        (if utf8Valid (stripBOM b) then .success else .unicodeError)
      else .unicodeError,
   fun s => s == "utf-8"⟩

/-- An environment in which every decode attempt fails and no name is
registered. -/
def envAllFail : Env := ⟨fun _ _ => .unicodeError, fun _ => false⟩

/-- `b"A\n\xff\n"` — first line valid UTF-8 with no cookie, second line
invalid UTF-8. -/
def fileANl : List Byte := strBytes "A\n" ++ [0xFF, 10]

/-! ## General lemmas -/

/-- `attempt_decode` reports `True` exactly when the decode call
succeeds. -/
theorem attemptDecodeBool_eq_true (decR : String → List Byte → DecodeOutcome)
    (text : List Byte) (codec : String) :
    attemptDecodeBool decR text codec = true ↔ decR codec text = .success := by
  unfold attemptDecodeBool attempt_decode decodeCall
  cases decR codec text <;> simp

/-- Decoding a UTF-8 byte-order mark followed by `r` amounts to decoding
`r` (the BOM is the valid three-byte encoding of `U+FEFF`). -/
theorem utf8Valid_bom_cons (r : List Byte) :
    utf8Valid (0xEF :: 0xBB :: 0xBF :: r) = utf8Valid r := by
  have h : utf8Decode (0xEF :: 0xBB :: 0xBF :: r) = (utf8Decode r).map (0xFEFF :: ·) := rfl
  unfold utf8Valid
  rw [h]
  cases utf8Decode r <;> rfl

/-- A byte string that is valid UTF-8 is still valid after stripping a
leading byte-order mark — so `utf-8-sig` decoding succeeds whenever
`utf-8` decoding does. -/
theorem utf8Valid_stripBOM (b : List Byte) (h : utf8Valid b = true) :
    utf8Valid (stripBOM b) = true := by
  unfold stripBOM
  split
  · next htake =>
    match b, htake with
    | x :: y :: z :: r, htake =>
        simp [BOM, List.take] at htake
        obtain ⟨rfl, rfl, rfl⟩ := htake
        rwa [utf8Valid_bom_cons] at h
    | [], htake | [x], htake | [x, y], htake => simp [BOM] at htake
  · exact h

/-- A successful brute-force pass is exactly a first successful codec in
list order. -/
theorem brutePass_eq_some_iff (decR : String → List Byte → DecodeOutcome)
    (contents : List Byte) (c : String) :
    brutePass decR contents = some c ↔
      IsFirstSuccessfulCodec (attemptDecodeBool decR contents) c := by
  unfold brutePass IsFirstSuccessfulCodec
  rw [List.find?_eq_some]
  simp [Bool.not_eq_true']

/-- If a pass over `CODECS` picks `"utf-8"`, then `"utf-8-sig"` (listed
before it) failed while `"utf-8"` succeeded. -/
theorem find?_CODECS_utf8 (p : String → Bool)
    (h : CODECS.find? p = some "utf-8") :
    p "utf-8-sig" = false ∧ p "utf-8" = true := by
  refine ⟨?_, List.find?_some h⟩
  by_cases h0 : p "ascii"
  · rw [show CODECS = "ascii" :: CODECS.tail from rfl,
      List.find?_cons_of_pos _ h0] at h
    exact absurd (Option.some.inj h) (by decide)
  by_cases h1 : p "utf-7"
  · rw [show CODECS = "ascii" :: "utf-7" :: CODECS.tail.tail from rfl,
      List.find?_cons_of_neg _ h0, List.find?_cons_of_pos _ h1] at h
    exact absurd (Option.some.inj h) (by decide)
  by_cases h2 : p "utf-8-sig"
  · rw [show CODECS = "ascii" :: "utf-7" :: "utf-8-sig" ::
        CODECS.tail.tail.tail from rfl,
      List.find?_cons_of_neg _ h0, List.find?_cons_of_neg _ h1,
      List.find?_cons_of_pos _ h2] at h
    exact absurd (Option.some.inj h) (by decide)
  · exact Bool.not_eq_true _ ▸ h2

/-- When the declaration scan returns a name, `detect_encoding` returns
it, runs no decode trial — but has still read the contents. -/
theorem detect_scan_ok (env : Env) (p : Params) (file : List Byte)
    (enc : String) (hsize : p.size = none)
    (hscan : tokenizeDetectEncoding env.known file = .ok enc) :
    detect_encoding env p file = (.ok enc, ⟨true, true, []⟩) := by
  simp [detect_encoding, hsize, hscan]

/-- Under a UTF-8-faithful oracle, a brute-force pass can never pick
`"utf-8"`: `"utf-8-sig"` is listed before it and succeeds on every byte
string `"utf-8"` succeeds on. -/
theorem brutePass_ne_utf8 (env : Env) (contents : List Byte)
    (hfaith : UTF8Faithful env) :
    brutePass env.decR contents ≠ some "utf-8" := by
  intro hbp
  obtain ⟨hsig, hok⟩ := find?_CODECS_utf8 _ hbp
  rw [attemptDecodeBool_eq_true] at hok
  have hv := (hfaith contents).1.mp hok
  have hs := (attemptDecodeBool_eq_true env.decR contents "utf-8-sig").mpr
    ((hfaith contents).2.mpr (utf8Valid_stripBOM _ hv))
  rw [hs] at hsig
  cases hsig

/-- Under a UTF-8-faithful oracle, a detection result of `"utf-8"` (with
no size ceiling) can only have come from the declaration scan. -/
theorem detect_utf8_only_from_scan (env : Env) (p : Params)
    (file : List Byte) (hsize : p.size = none) (hfaith : UTF8Faithful env)
    (h : detectResult env p file = .ok "utf-8") :
    tokenizeDetectEncoding env.known file = .ok "utf-8" := by
  unfold detectResult detect_encoding at h
  rw [hsize] at h
  cases hscan : tokenizeDetectEncoding env.known file with
  | ok enc =>
      rw [hscan] at h
      simpa using h
  | error err =>
      rw [hscan] at h
      simp only [reraiseGuard, Bool.false_eq_true, if_false] at h
      exfalso
      cases hbp : brutePass env.decR (sampledBytes p file) with
      | none => rw [hbp] at h; simp at h
      | some c =>
          rw [hbp] at h
          simp at h
          exact brutePass_ne_utf8 env _ hfaith (h ▸ hbp)

/-! ## The claims -/

/-- C1, counterexample.  The claim says an empty file with no cookie
yields `"ascii"`.  It does not: on an empty file `tokenize.detect_encoding`
returns its default `"utf-8"` without raising, `codec_known` becomes true
and the brute-force phase never runs, so `detect_encoding` returns
`"utf-8"` (the decode oracle — here one where, as in Python, every codec
decodes zero bytes — is never consulted). -/
theorem claim1_counterexample :
    detectResult emptyFileEnv {} [] = .ok "utf-8" ∧
    detectResult emptyFileEnv {} [] ≠ .ok "ascii" := by decide

/-- C1, amended.  For every file (no size ceiling) whose declaration scan
raises a — swallowed — `SyntaxError`, `detect_encoding` returns codec `c`
iff `c` is the first codec in Candidate Codec List order whose decode of
the sampled bytes succeeds.  (As stated the claim is false: when the scan
succeeds — e.g. on an empty file — its result, by default `"utf-8"`, is
returned and no brute-force trial runs; see `claim1_counterexample`.) -/
theorem claim1_brute_force_returns_first_success (env : Env) (p : Params)
    (file : List Byte) (c : String) (err : SyntaxErr)
    (hsize : p.size = none)
    (hscan : tokenizeDetectEncoding env.known file = .error err) :
    detectResult env p file = .ok c ↔
      IsFirstSuccessfulCodec (attemptDecodeBool env.decR (sampledBytes p file)) c := by
  rw [← brutePass_eq_some_iff]
  unfold detectResult detect_encoding
  rw [hsize, hscan]
  simp only [reraiseGuard, Bool.false_eq_true, if_false]
  cases hbp : brutePass env.decR (sampledBytes p file) <;> simp [hbp]

/-- C1, witness: under an oracle matching Python's codecs on `b'\xff'`
(the ASCII, UTF and Big5 families reject it, `cp037` — which maps every
byte — accepts), the swallowed scan error leads to the first successful
codec, `"cp037"`. -/
theorem claim1_witness : detectResult envFF {} fileFF = .ok "cp037" := by
  refine (claim1_brute_force_returns_first_success envFF {} fileFF "cp037"
    .invalidDeclaration rfl rfl).mpr ?_
  exact ⟨by decide, beforeCp037, CODECS.drop 13, by decide, by decide⟩

/-- C2, confirmed.  When the leading line(s) carry a valid cookie naming
a recognised codec, `detect_encoding` returns that (normalised) name —
whatever the rest of the file contains and whatever the decode oracle
would say (no decode trial runs: the declared name is trusted without
further validation). -/
theorem claim2_cookie_codec_returned (env : Env) (p : Params)
    (file : List Byte) (nm : String)
    (hsize : p.size = none)
    (hcookie : tokenizeScan env.known file = .ok (nm, true)) :
    detectResult env p file = .ok nm ∧
      (detect_encoding env p file).2.trials = [] := by
  have h : tokenizeDetectEncoding env.known file = .ok nm := by
    unfold tokenizeDetectEncoding
    rw [hcookie]
    rfl
  rw [detectResult, detect_scan_ok env p file nm hsize h]
  exact ⟨rfl, rfl⟩

/-- C2, witness: the file `b"# -*- coding: cp1252 -*-\n\xff\n"` detects
as `"cp1252"` even though its second line is undecodable and the oracle
rejects everything. -/
theorem claim2_witness :
    detectResult envCp1252 {} cookieFileCp1252 = .ok "cp1252" :=
  (claim2_cookie_codec_returned envCp1252 {} cookieFileCp1252 "cp1252"
    rfl rfl).1

/-- C3, confirmed.  When the (swallowed) scan failure sends
`detect_encoding` into the brute-force phase and every codec in `CODECS`
fails on the sampled bytes, the `while codec_known is False` loop
re-enters and retries the whole list from the start forever: after any
number of passes the call has not returned. -/
theorem claim3_all_codecs_fail_never_returns (env : Env) (p : Params)
    (file : List Byte) (err : SyntaxErr)
    (hsize : p.size = none)
    (hscan : tokenizeDetectEncoding env.known file = .error err)
    (hall : ∀ c ∈ CODECS,
      attemptDecodeBool env.decR (sampledBytes p file) c = false) :
    ∀ fuel, detectEncodingFuel env p file fuel = none := by
  intro fuel
  have hbp : brutePass env.decR (sampledBytes p file) = none := by
    unfold brutePass
    rw [List.find?_eq_none]
    intro x hx
    simp [hall x hx]
  have hw : ∀ n, whileLoopFuel env.decR (sampledBytes p file) n = none := by
    intro n
    induction n with
    | zero => rfl
    | succ n ih =>
        unfold whileLoopFuel
        rw [hbp]
        exact ih
  simp [detectEncodingFuel, hsize, hscan, reraiseGuard, hw fuel]

/-- C3, witness: with an oracle under which every decode fails, the call
on `b'\xff'` has not returned after 1000 passes. -/
theorem claim3_witness : detectEncodingFuel envAllFail {} fileFF 1000 = none :=
  claim3_all_codecs_fail_never_returns envAllFail {} fileFF
    .invalidDeclaration rfl rfl (by decide) 1000

/-- C4, confirmed.  With a size ceiling configured, a file strictly under
the (rounded-MB) ceiling passes the assertion and immediately hits the
unconditional `sys.exit()`, raising `SystemExit`; and with a ceiling
configured the call never returns a codec name on any path (at or over
the ceiling it is the failed assertion instead). -/
theorem claim4_size_configured_never_returns (env : Env) (p : Params)
    (file : List Byte) (s : ℚ) (hsize : p.size = some s) :
    (fileSizeMB file.length < s → detectResult env p file = .systemExit) ∧
    ∀ c, detectResult env p file ≠ .ok c := by
  unfold detectResult detect_encoding
  rw [hsize]
  constructor
  · intro h
    simp [h]
  · intro c
    by_cases h : fileSizeMB file.length < s <;> simp [h]

/-- C4, witness: an empty file under a 1 MB ceiling exits via
`sys.exit()`. -/
theorem claim4_witness :
    detectResult emptyFileEnv ⟨true, some 1, false⟩ [] = .systemExit := by
  refine (claim4_size_configured_never_returns emptyFileEnv _ [] 1 rfl).1 ?_
  show fileSizeMB 0 < 1
  norm_num [fileSizeMB, roundHalfEven]

/-- C5, confirmed.  A file strictly over the configured ceiling fails the
`assert file_size < params['size']`: the call ends in an
`AssertionError` — an abnormal exit, not a returned value — before either
`open` and before any decode attempt (empty trace). -/
theorem claim5_oversize_aborts_before_decode (env : Env) (p : Params)
    (file : List Byte) (s : ℚ) (hsize : p.size = some s)
    (hover : s < fileSizeMB file.length) :
    detectResult env p file = .assertionError ∧
    (detect_encoding env p file).2 = ⟨false, false, []⟩ := by
  have h : ¬ (fileSizeMB file.length < s) := not_lt.mpr hover.le
  unfold detectResult detect_encoding
  rw [hsize]
  simp [h]

/-- C5, witness: a 2 MiB file over a 1 MB ceiling aborts with the failed
assertion. -/
theorem claim5_witness :
    detectResult emptyFileEnv ⟨true, some 1, false⟩
      (List.replicate 2097152 0) = .assertionError := by
  refine (claim5_oversize_aborts_before_decode emptyFileEnv _ _ 1 rfl ?_).1
  rw [List.length_replicate]
  show (1 : ℚ) < fileSizeMB 2097152
  norm_num [fileSizeMB, roundHalfEven]

/-- C6, code bug.  The code intends to re-raise scanner `SyntaxError`s
unrelated to encoding identification (its own comment: `If the syntax
error is not related to identifying the encoding, re-raise the error.`),
but the guard
`if 'invalid or missing encoding declaration for' in str(err) is False:`
chains to `('…' in str(err)) and (str(err) is False)`, which is always
false — so even the unknown-encoding `SyntaxError` raised for the cookie
`# -*- coding: bogus -*-` is swallowed, and the call falls through to
brute force and returns `"ascii"` instead of propagating the error. -/
theorem claim6_unrelated_syntax_error_swallowed :
    tokenizeDetectEncoding envBogus.known bogusCookieFile =
      .error (.unknownEncoding "bogus") ∧
    detectResult envBogus {} bogusCookieFile = .ok "ascii" :=
  ⟨rfl, by decide⟩

/-- C7, amended.  `attempt_decode` returns `True` iff decoding succeeds
and `False` when decoding raises the decode-failure error; but an error
of any *other* kind does not propagate either: the `return codec_found`
inside the `finally` block discards the in-flight exception, so the
caller receives `False` and `attempt_decode` never raises. -/
theorem claim7_attempt_decode_never_raises
    (decR : String → List Byte → DecodeOutcome)
    (text : List Byte) (codec : String) :
    (attempt_decode decR text codec = .ok true ↔ decR codec text = .success) ∧
    ∀ e : PyExn, attempt_decode decR text codec ≠ .error e := by
  unfold attempt_decode decodeCall
  cases decR codec text <;> simp

/-- C7, counterexample.  The claim says a non-decode error (such as the
`LookupError` for an unknown codec name) propagates to the caller; it
does not: with an oracle raising such an error, `attempt_decode` returns
`False` normally instead of letting the error escape. -/
theorem claim7_counterexample :
    attempt_decode (fun _ _ => .otherError) [] "bogus" = .ok false := rfl

/-- C8, counterexample.  No file of the claimed kind exists, for any
decode oracle that treats `utf-8` and `utf-8-sig` as Python does: a
`full_check=false` result of `"utf-8"` can only come from the
declaration scan (the brute-force phase cannot pick `"utf-8"`, because
`"utf-8-sig"` precedes it in `CODECS` and succeeds whenever it does),
and the scan does not depend on `full_check`, so the `full_check=true`
result is the same `"utf-8"`, never a different, later codec. -/
theorem claim8_counterexample :
    ¬ ∃ (env : Env) (file : List Byte) (c : String),
      UTF8Faithful env ∧
      utf8Valid (splitFirstLine file).1 = true ∧
      utf8Valid (splitFirstLine (splitFirstLine file).2).1 = false ∧
      fileHasCookie file = false ∧
      detectResult env {full_check := false} file = .ok "utf-8" ∧
      detectResult env {full_check := true} file = .ok c ∧
      c ≠ "utf-8" ∧ c ∈ CODECS.drop 4 := by
  rintro ⟨env, file, c, hfaith, -, -, -, h0, h1, hne, -⟩
  have hscan := detect_utf8_only_from_scan env _ file rfl hfaith h0
  rw [detectResult, detect_scan_ok env _ file "utf-8" rfl hscan] at h1
  exact hne (Outcome.ok.inj h1.symm)

/-- C8, amended.  For every decode oracle faithful to Python on `utf-8`
and `utf-8-sig`: if a file detects as `"utf-8"` under `full_check=false`,
it detects as `"utf-8"` under `full_check=true` as well — the result
`"utf-8"` can only come from the declaration scan, which reads the same
leading line(s) in both modes; `full_check` cannot turn a `"utf-8"`
result into a different, later codec. -/
theorem claim8_full_check_cannot_change_utf8 (env : Env) (file : List Byte)
    (hfaith : UTF8Faithful env)
    (h : detectResult env {full_check := false} file = .ok "utf-8") :
    detectResult env {full_check := true} file = .ok "utf-8" := by
  have hscan := detect_utf8_only_from_scan env _ file rfl hfaith h
  rw [detectResult, detect_scan_ok env _ file "utf-8" rfl hscan]

/-- C8, witness: `b"A\n\xff\n"` — valid UTF-8 on line 1, invalid on
line 2, no cookie — detects as `"utf-8"` under `full_check=false` (the
scanner's default), hence also under `full_check=true`. -/
theorem claim8_witness :
    detectResult utf8Env {full_check := true} fileANl = .ok "utf-8" := by
  refine claim8_full_check_cannot_change_utf8 utf8Env fileANl ?_ (by decide)
  intro b
  constructor
  · show (if utf8Valid b then DecodeOutcome.success else .unicodeError) =
        .success ↔ utf8Valid b = true
    cases hv : utf8Valid b <;> simp [hv]
  · show (if utf8Valid (stripBOM b) then DecodeOutcome.success
        else .unicodeError) = .success ↔ utf8Valid (stripBOM b) = true
    cases hv : utf8Valid (stripBOM b) <;> simp [hv]

/-- C9, confirmed.  Detection is deterministic: the embedded
`detect_encoding` is a function of the codec environment, the
configuration and the file bytes alone (the only module-level state,
`CODECS`, is immutable), so two calls on the same unchanged file with
the same configuration yield the same result. -/
theorem claim9_deterministic (env : Env) (p₁ p₂ : Params)
    (f₁ f₂ : List Byte) (hp : p₁ = p₂) (hf : f₁ = f₂) :
    detect_encoding env p₁ f₁ = detect_encoding env p₂ f₂ := by
  rw [hp, hf]

/-- C9, witness: two calls on the empty file with default configuration
agree. -/
theorem claim9_witness :
    detect_encoding emptyFileEnv {} [] = detect_encoding emptyFileEnv {} [] :=
  claim9_deterministic emptyFileEnv {} {} [] [] rfl rfl

/-- C10, counterexample.  On a file whose cookie the scanner accepts
(`# -*- coding: utf-8 -*-`), the claim says the file contents are not
re-read; but lines 115–120 run unconditionally: the second `open` reads
the contents (`contentsRead = true`) even though no brute-force trial
runs. -/
theorem claim10_counterexample :
    tokenizeScan utf8Env.known utf8CookieFile = .ok ("utf-8", true) ∧
    (detect_encoding utf8Env {} utf8CookieFile).2.contentsRead = true ∧
    (detect_encoding utf8Env {} utf8CookieFile).2.trials = [] :=
  ⟨rfl, by decide, by decide⟩

/-- C10, amended.  If the declaration scanner yields a codec name, the
brute-force phase is skipped (no decode trial runs) and that name is the
result — but the file contents are still re-read: the second `open`
(lines 115–120) executes unconditionally in every call that passes the
size guard. -/
theorem claim10_scan_skips_trials_but_reads_contents (env : Env)
    (p : Params) (file : List Byte) (nm : String) (fromCookie : Bool)
    (hsize : p.size = none)
    (hscan : tokenizeScan env.known file = .ok (nm, fromCookie)) :
    detectResult env p file = .ok nm ∧
    (detect_encoding env p file).2.trials = [] ∧
    (detect_encoding env p file).2.contentsRead = true := by
  have h : tokenizeDetectEncoding env.known file = .ok nm := by
    unfold tokenizeDetectEncoding
    rw [hscan]
    rfl
  rw [detectResult, detect_scan_ok env p file nm hsize h]
  exact ⟨rfl, rfl, rfl⟩

/-- C10, witness: the scanner accepts the `utf-8` cookie, no trial runs,
and the contents are nevertheless read. -/
theorem claim10_witness :
    (detect_encoding utf8Env {} utf8CookieFile).2.contentsRead = true :=
  (claim10_scan_skips_trials_but_reads_contents utf8Env {} utf8CookieFile
    "utf-8" true rfl rfl).2.2

end DetectCodec
